import Mathlib

/-!
Shallow embedding of the statistical core of `stats_cli.py`
(statistics-toolkit-cli).

Samples are embedded as `List ℚ` (the Python code works on numpy float
arrays; all the arithmetic the claims mention is exact on rationals).
Square roots and the t-test statistic live in `ℝ` via `Real.sqrt`.
`scipy.stats.t.cdf` and `scipy.stats.t.ppf` are external library calls;
the t-test embedding is parametrized over them (`tcdf`, `tppf`), so the
structure of the computation (which arguments they receive, how the
results are combined) is embedded faithfully while the t-distribution
itself stays abstract.

The source raises no exception on degenerate inputs; the embedding
mirrors that by being total, with Lean's `x / 0 = 0` convention standing
in for numpy's silent NaN/Inf propagation (the relevant point for the
claims is only that no `InvalidInput` error path exists in the code).
-/

/-- `np.sort` (line 100/180): the sample sorted ascending. -/
def npSort (data : List ℚ) : List ℚ :=
  List.insertionSort (· ≤ ·) data

/-- `np.mean` (line 93): sum divided by length. -/
def npMean (data : List ℚ) : ℚ :=
  data.sum / (data.length : ℚ)

/-- `np.median` (line 101): middle of the sorted sample, averaging the two
middle elements when the length is even. -/
def npMedian (data : List ℚ) : ℚ :=
  if data.length % 2 = 0 then
    ((npSort data).getD (data.length / 2 - 1) 0 + (npSort data).getD (data.length / 2) 0) / 2
  else
    (npSort data).getD (data.length / 2) 0

/-- `np.min` over a sample (0 for the empty sample, where numpy errors). -/
def npMin (data : List ℚ) : ℚ :=
  match data with
  | [] => 0
  | x :: xs => xs.foldl min x

/-- `np.max` over a sample (0 for the empty sample, where numpy errors). -/
def npMax (data : List ℚ) : ℚ :=
  match data with
  | [] => 0
  | x :: xs => xs.foldl max x

/-- `np.unique` (line 113): the distinct values, sorted ascending. -/
def npUnique (data : List ℚ) : List ℚ :=
  npSort data.dedup

/-- The maximum frequency `max_count = np.max(counts)` (line 114). -/
def max_count (data : List ℚ) : ℕ :=
  ((npUnique data).map (fun v => data.count v)).foldr max 0

/-- `modes = values[counts == max_count]` (line 115): the distinct values
attaining the maximum frequency, in ascending order. -/
def modes (data : List ℚ) : List ℚ :=
  (npUnique data).filter (fun v => data.count v == max_count data)

/-- The three branches of the mode step display (lines 119-124). -/
inductive ModeStep where
  | oneMode (m : ℚ)
  | noMode
  | multiModes (ms : List ℚ)
deriving DecidableEq

/-- Which mode message `measures_of_center` prints (lines 119-124): a single
mode, `"No mode (all values appear once)"` when the mode set is the whole
sample, or the list of tied modes. -/
def mode_step (data : List ℚ) : ModeStep :=
  if (modes data).length = 1 then ModeStep.oneMode ((modes data).getD 0 0)
  else if (modes data).length = data.length then ModeStep.noMode
  else ModeStep.multiModes (modes data)

/-- The dictionary returned by `measures_of_center` (lines 126-131). -/
structure CenterResult where
  mean : ℚ
  median : ℚ
  mode : List ℚ
  n : ℕ

/-- `DescriptiveStats.measures_of_center` (lines 82-131): the returned
dictionary (the step display is captured separately by `mode_step`). -/
def measures_of_center (data : List ℚ) : CenterResult :=
  { mean := npMean data
    median := npMedian data
    mode := modes data
    n := data.length }

/-- `np.var(data, ddof=1)` (line 150): sum of squared deviations from the
mean divided by `n - 1` (Bessel's correction). For `n = 1` the divisor is
zero; numpy yields NaN, the embedding yields `0` by the `x / 0 = 0`
convention — either way no error is raised. -/
def np_var (data : List ℚ) : ℚ :=
  (data.map (fun x => (x - npMean data) ^ 2)).sum / ((data.length : ℚ) - 1)

/-- `np.std(data, ddof=1)` (line 151): square root of the Bessel-corrected
variance. -/
noncomputable def np_std (data : List ℚ) : ℝ :=
  Real.sqrt ((np_var data : ℚ) : ℝ)

/-- The dictionary returned by `measures_of_spread` (lines 169-175). -/
structure SpreadResult where
  variance : ℚ
  std_dev : ℝ
  range : ℚ
  min : ℚ
  max : ℚ

/-- `DescriptiveStats.measures_of_spread` (lines 134-175). -/
noncomputable def measures_of_spread (data : List ℚ) : SpreadResult :=
  { variance := np_var data
    std_dev := np_std data
    range := npMax data - npMin data
    min := npMin data
    max := npMax data }

/-- `np.percentile(data, p)` with the default linear interpolation method
(lines 182-184): virtual index `h = p/100 * (n-1)`, linearly interpolating
between the adjacent sorted order statistics. -/
def npPercentile (data : List ℚ) (p : ℚ) : ℚ :=
  let s := npSort data
  let h : ℚ := p / 100 * ((data.length : ℚ) - 1)
  let i : ℕ := (⌊h⌋).toNat
  let g : ℚ := h - (i : ℚ)
  s.getD i 0 + g * (s.getD (min (i + 1) (data.length - 1)) 0 - s.getD i 0)

/-- `iqr = q3 - q1` (line 185). -/
def iqr_of (data : List ℚ) : ℚ :=
  npPercentile data 75 - npPercentile data 25

/-- `lower_fence = q1 - 1.5 * iqr` (line 198). -/
def lower_fence_of (data : List ℚ) : ℚ :=
  npPercentile data 25 - 3 / 2 * iqr_of data

/-- `upper_fence = q3 + 1.5 * iqr` (line 199). -/
def upper_fence_of (data : List ℚ) : ℚ :=
  npPercentile data 75 + 3 / 2 * iqr_of data

/-- `outliers = data[(data < lower_fence) | (data > upper_fence)]`
(line 200): the sample values strictly outside the fences, in sample
order. -/
def outliers_of (data : List ℚ) : List ℚ :=
  data.filter (fun x => decide (x < lower_fence_of data) || decide (upper_fence_of data < x))

/-- The dictionary returned by `five_number_summary` (lines 211-221). -/
structure FiveNumResult where
  min : ℚ
  q1 : ℚ
  median : ℚ
  q3 : ℚ
  max : ℚ
  iqr : ℚ
  outliers : List ℚ
  lower_fence : ℚ
  upper_fence : ℚ

/-- `DescriptiveStats.five_number_summary` (lines 177-221). -/
def five_number_summary (data : List ℚ) : FiveNumResult :=
  { min := npMin data
    q1 := npPercentile data 25
    median := npPercentile data 50
    q3 := npPercentile data 75
    max := npMax data
    iqr := iqr_of data
    outliers := outliers_of data
    lower_fence := lower_fence_of data
    upper_fence := upper_fence_of data }

/-- The `alternative` parameter of the t-test (`'two-sided'`, `'greater'`,
`'less'`). -/
inductive AlternativeKind where
  | twoSided
  | greater
  | less
deriving DecidableEq

/-- The `StatResult` dataclass (lines 26-35); `critical_value`,
`confidence_interval` and `steps` default to `none`, `interpretation` to
the empty string, exactly as the Python defaults. -/
structure StatResult where
  test_name : String
  statistic : ℝ
  p_value : ℝ
  critical_value : Option ℝ := none
  confidence_interval : Option (ℝ × ℝ) := none
  interpretation : String := ""
  steps : Option (List String) := none

/-- `t_stat = (sample_mean - mu0) / (sample_std / np.sqrt(n))` (line 258),
with `sample_std = np.std(data, ddof=1)` (line 236). -/
noncomputable def t_statistic (data : List ℚ) (mu0 : ℚ) : ℝ :=
  (((npMean data : ℚ) : ℝ) - ((mu0 : ℚ) : ℝ)) / (np_std data / Real.sqrt (data.length : ℝ))

/-- `df = n - 1` (line 259), as an integer as in Python. -/
def df_of (data : List ℚ) : ℤ :=
  (data.length : ℤ) - 1

/-- The p-value computation (lines 268-273), parametrized over the
t-distribution CDF `tcdf t df` (the external `scipy.stats.t.cdf`):
two-sided `2 * (1 - cdf |t| df)`, greater `1 - cdf t df`, less
`cdf t df`, always at `df = n - 1`. -/
noncomputable def p_value_of (tcdf : ℝ → ℤ → ℝ) (data : List ℚ) (mu0 : ℚ)
    (alternative : AlternativeKind) : ℝ :=
  match alternative with
  | AlternativeKind.twoSided => 2 * (1 - tcdf |t_statistic data mu0| (df_of data))
  | AlternativeKind.greater => 1 - tcdf (t_statistic data mu0) (df_of data)
  | AlternativeKind.less => tcdf (t_statistic data mu0) (df_of data)

/-- The critical value computation (lines 276-279), parametrized over the
t-distribution quantile function `tppf q df` (the external
`scipy.stats.t.ppf`): `1 - alpha/2` for two-sided, `1 - alpha`
otherwise. -/
noncomputable def critical_value_of (tppf : ℝ → ℤ → ℝ) (data : List ℚ) (alpha : ℚ)
    (alternative : AlternativeKind) : ℝ :=
  match alternative with
  | AlternativeKind.twoSided => tppf (1 - (alpha : ℝ) / 2) (df_of data)
  | _ => tppf (1 - (alpha : ℝ)) (df_of data)

/-- `reject_null = p_value < alpha` (line 288). -/
def reject_null_of (tcdf : ℝ → ℤ → ℝ) (data : List ℚ) (mu0 alpha : ℚ)
    (alternative : AlternativeKind) : Prop :=
  p_value_of tcdf data mu0 alternative < (alpha : ℝ)

open Classical in
/-- The interpretation string (line 300):
the decision prefix followed by `" H₀ at α = "` and the alpha value. -/
noncomputable def interpretation_of (tcdf : ℝ → ℤ → ℝ) (data : List ℚ) (mu0 alpha : ℚ)
    (alternative : AlternativeKind) : String :=
  (if reject_null_of tcdf data mu0 alpha alternative then "Reject" else "Fail to reject") ++
    " H₀ at α = " ++ toString alpha

/-- `HypothesisTests.one_sample_t_test` (lines 230-308): the returned
`StatResult`. The fields `confidence_interval` and `steps` are not passed
at the construction site (lines 302-308), so they keep their `None`
defaults. -/
noncomputable def one_sample_t_test (tcdf tppf : ℝ → ℤ → ℝ) (data : List ℚ)
    (mu0 alpha : ℚ) (alternative : AlternativeKind) : StatResult :=
  { test_name := "One-Sample t-test"
    statistic := t_statistic data mu0
    p_value := p_value_of tcdf data mu0 alternative
    critical_value := some (critical_value_of tppf data alpha alternative)
    interpretation := interpretation_of tcdf data mu0 alpha alternative }

/-- The demo sample of `sample_data_demo` and `quick_test.py`
(line 430). -/
def sample85 : List ℚ :=
  [85, 92, 78, 88, 95, 82, 79, 91, 87, 84]

/-! ### Helper lemmas -/

/-- Sorting is characterized by any sorted permutation. -/
lemma npSort_eq {data s : List ℚ} (hp : data.Perm s) (hs : s.Sorted (· ≤ ·)) :
    npSort data = s :=
  List.eq_of_perm_of_sorted ((List.perm_insertionSort _ data).trans hp)
    (List.sorted_insertionSort _ data) hs

/-- Folding `max` over a nonempty list of ones yields one. -/
lemma foldr_max_ones (l : List ℕ) (h1 : ∀ x ∈ l, x = 1) (hne : l ≠ []) :
    l.foldr max 0 = 1 := by
  induction l with
  | nil => exact absurd rfl hne
  | cons a t ih =>
    have ha : a = 1 := h1 a (List.mem_cons_self a t)
    cases t with
    | nil => simp [ha]
    | cons b t2 =>
      have hfold : (b :: t2).foldr max 0 = 1 :=
        ih (fun x hx => h1 x (List.mem_cons_of_mem a hx)) (by simp)
      rw [List.foldr_cons, hfold, ha]
      decide

/-- Membership in the returned mode list is exactly membership in the sample
with maximal frequency. -/
lemma mem_modes_iff (data : List ℚ) (x : ℚ) :
    x ∈ modes data ↔ x ∈ data ∧ data.count x = max_count data := by
  have hmem : x ∈ npUnique data ↔ x ∈ data := by
    unfold npUnique npSort
    rw [List.Perm.mem_iff (List.perm_insertionSort _ _), List.mem_dedup]
  unfold modes
  simp only [List.mem_filter, hmem, beq_iff_eq]

/-- On a duplicate-free sample of size at least two the step display takes
the `"No mode"` branch. -/
lemma nodup_mode_step (data : List ℚ) (h2 : 2 ≤ data.length) (hnd : data.Nodup) :
    mode_step data = ModeStep.noMode := by
  have hded : data.dedup = data := hnd.dedup
  have hperm : (npUnique data).Perm data := by
    unfold npUnique npSort
    rw [hded]
    exact List.perm_insertionSort _ data
  have hlen : (npUnique data).length = data.length := hperm.length_eq
  have hcount : ∀ v ∈ npUnique data, data.count v = 1 := fun v hv =>
    List.count_eq_one_of_mem hnd (hperm.mem_iff.mp hv)
  have hne : npUnique data ≠ [] := by
    intro h0
    rw [h0] at hlen
    simp only [List.length_nil] at hlen
    omega
  have hmc : max_count data = 1 := by
    unfold max_count
    apply foldr_max_ones
    · intro x hx
      simp only [List.mem_map] at hx
      obtain ⟨v, hv, rfl⟩ := hx
      exact hcount v hv
    · simpa using hne
  have hmodes : modes data = npUnique data := by
    unfold modes
    apply List.filter_eq_self.mpr
    intro v hv
    simp [hcount v hv, hmc]
  have hmlen : (modes data).length = data.length := by rw [hmodes, hlen]
  unfold mode_step
  rw [if_neg (by rw [hmlen]; omega), if_pos hmlen]

/-- The Bessel variance of the demo sample, exactly. -/
lemma np_var_sample85 : np_var sample85 = 2809 / 90 := by
  norm_num [np_var, npMean, sample85]

/-- The t-statistic of the demo sample against `mu0 = 85`, exactly. -/
lemma t_statistic_sample85 : t_statistic sample85 85 = 33 / 53 := by
  unfold t_statistic np_std
  rw [np_var_sample85]
  rw [show npMean sample85 = 861 / 10 by norm_num [npMean, sample85]]
  rw [show ((sample85.length : ℕ) : ℝ) = 10 by norm_num [sample85]]
  push_cast
  rw [show Real.sqrt ((2809 : ℝ) / 90) / Real.sqrt 10 = Real.sqrt ((2809 / 90) / 10) from
    (Real.sqrt_div (by norm_num) 10).symm]
  rw [show ((2809 : ℝ) / 90) / 10 = (53 / 30) ^ 2 by norm_num]
  rw [Real.sqrt_sq (by norm_num : (0 : ℝ) ≤ 53 / 30)]
  norm_num

/-! ### Claim theorems -/

/-- C1 (counterexample): for the all-unique sample `[1, 2, 3]` the `mode`
field of the dictionary returned by `measures_of_center` is `[1, 2, 3]` —
all `n = 3` values are reported as modes; the returned result carries no
"no mode" signal. -/
theorem mode_all_unique_counter :
    (measures_of_center [1, 2, 3]).mode = [1, 2, 3] ∧ ([1, 2, 3] : List ℚ).length = 3 :=
  ⟨by decide, by decide⟩

/-- C1 (amended): the `mode` field of the returned dictionary is always
exactly the set of values attaining the maximum frequency — including all
`n` values when every value is unique; only the printed step display
special-cases "no mode" (it takes the `"No mode"` branch on every
duplicate-free sample of size at least 2); and the mode of `[1, 1, 2, 3]`
is `{1}`. -/
theorem mode_returned_set :
    (∀ (data : List ℚ) (x : ℚ),
      x ∈ (measures_of_center data).mode ↔ x ∈ data ∧ data.count x = max_count data) ∧
    (∀ data : List ℚ, 2 ≤ data.length → data.Nodup → mode_step data = ModeStep.noMode) ∧
    (measures_of_center [1, 1, 2, 3]).mode = [1] :=
  ⟨fun data x => mem_modes_iff data x, fun data h2 hnd => nodup_mode_step data h2 hnd, by decide⟩

/-- C1 (witness): the amended theorem applied to the concrete duplicate-free
sample `[1, 2]`. -/
theorem mode_returned_set_witness : mode_step [1, 2] = ModeStep.noMode :=
  mode_returned_set.2.1 [1, 2] (by decide) (by decide)

/-- C2 (code behaviour at the failing inputs): none of the degenerate inputs
produces an `InvalidInput` error — the source has no such guard, so every
operation returns an ordinary result record: `measures_of_spread` on the
size-1 sample `[5]` returns a variance (the unguarded `0/0`),
`measures_of_center` on the empty sample returns a mean (the unguarded
`0/0`) and `n = 0`, and the t-statistic of the constant (zero-variance)
sample `[3, 3, 3]` against `mu0 = 3` is an ordinary real number. -/
theorem degenerate_inputs_return_values :
    (measures_of_spread [(5 : ℚ)]).variance = 0 ∧
    (measures_of_center ([] : List ℚ)).mean = 0 ∧
    (measures_of_center ([] : List ℚ)).n = 0 ∧
    t_statistic [3, 3, 3] 3 = 0 := by
  refine ⟨?_, ?_, rfl, ?_⟩
  · show np_var [(5 : ℚ)] = 0
    norm_num [np_var, npMean]
  · show npMean ([] : List ℚ) = 0
    norm_num [npMean]
  · unfold t_statistic
    rw [show npMean [(3 : ℚ), 3, 3] = 3 by norm_num [npMean]]
    norm_num

/-- C7: `five_number_summary` takes its quartiles from the
linear-interpolation percentile method, sets `iqr = q3 - q1`,
`lower_fence = q1 - 1.5 * iqr`, `upper_fence = q3 + 1.5 * iqr`, and its
outliers are exactly the sample values strictly outside the fences; for
`[1, 2, 3, 4, 100]` the single value `100` beyond the upper fence is the
only outlier, and for `[1, 2, 3, 4, 7]` the value `7` sitting exactly on
the upper fence is not an outlier. -/
theorem fences_and_outliers :
    (∀ data : List ℚ,
      (five_number_summary data).q1 = npPercentile data 25 ∧
      (five_number_summary data).q3 = npPercentile data 75 ∧
      (five_number_summary data).iqr =
        (five_number_summary data).q3 - (five_number_summary data).q1 ∧
      (five_number_summary data).lower_fence =
        (five_number_summary data).q1 - 3 / 2 * (five_number_summary data).iqr ∧
      (five_number_summary data).upper_fence =
        (five_number_summary data).q3 + 3 / 2 * (five_number_summary data).iqr ∧
      ∀ x : ℚ, x ∈ (five_number_summary data).outliers ↔
        x ∈ data ∧ (x < (five_number_summary data).lower_fence ∨
          (five_number_summary data).upper_fence < x)) ∧
    (five_number_summary [1, 2, 3, 4, 100]).outliers = [100] ∧
    (five_number_summary [1, 2, 3, 4, 7]).upper_fence = 7 ∧
    (five_number_summary [1, 2, 3, 4, 7]).outliers = [] := by
  refine ⟨fun data => ⟨rfl, rfl, rfl, rfl, rfl, fun x => ?_⟩, ?_, ?_, ?_⟩
  · show x ∈ outliers_of data ↔ _
    unfold outliers_of
    simp only [List.mem_filter, Bool.or_eq_true, decide_eq_true_eq]
    exact Iff.rfl
  · norm_num [five_number_summary, outliers_of, lower_fence_of, upper_fence_of, iqr_of,
      npPercentile, npSort, List.insertionSort, List.orderedInsert, List.filter,
      show (3 : ℤ).toNat = 3 from rfl]
  · norm_num [five_number_summary, upper_fence_of, iqr_of, npPercentile, npSort,
      List.insertionSort, List.orderedInsert, show (3 : ℤ).toNat = 3 from rfl]
  · norm_num [five_number_summary, outliers_of, lower_fence_of, upper_fence_of, iqr_of,
      npPercentile, npSort, List.insertionSort, List.orderedInsert, List.filter,
      show (3 : ℤ).toNat = 3 from rfl]

/-- C8: the median returned by `measures_of_center` is the middle element of
any sorted arrangement of the sample when the size is odd, and the average
of the two middle elements when it is even; the median of `[1, 2, 3, 4]` is
`5/2` and the median of `[1, 2, 3]` is `2`. -/
theorem median_middle :
    (∀ (data s : List ℚ), data.Perm s → s.Sorted (· ≤ ·) →
      (measures_of_center data).median =
        if data.length % 2 = 0 then
          (s.getD (data.length / 2 - 1) 0 + s.getD (data.length / 2) 0) / 2
        else s.getD (data.length / 2) 0) ∧
    (measures_of_center [1, 2, 3, 4]).median = 5 / 2 ∧
    (measures_of_center [1, 2, 3]).median = 2 := by
  refine ⟨?_, ?_, by decide⟩
  · intro data s hp hs
    have h : npSort data = s := npSort_eq hp hs
    show npMedian data = _
    unfold npMedian
    rw [h]
  · norm_num [measures_of_center, npMedian, npSort, List.insertionSort, List.orderedInsert]

/-- C8 (witness): the general median characterization applied to the
concrete sample `[3, 1, 2]` with sorted arrangement `[1, 2, 3]`. -/
theorem median_middle_witness :
    (measures_of_center [3, 1, 2]).median =
      if ([3, 1, 2] : List ℚ).length % 2 = 0 then
        (([1, 2, 3] : List ℚ).getD (([3, 1, 2] : List ℚ).length / 2 - 1) 0 +
          ([1, 2, 3] : List ℚ).getD (([3, 1, 2] : List ℚ).length / 2) 0) / 2
      else ([1, 2, 3] : List ℚ).getD (([3, 1, 2] : List ℚ).length / 2) 0 :=
  median_middle.1 [3, 1, 2] [1, 2, 3] (by decide) (by decide)

/-- C3 (counterexample): the t-statistic of the reference sample
`[85, 92, 78, 88, 95, 82, 79, 91, 87, 84]` against `mu0 = 85` is not within
`1e-3` of the claimed reference value `0.277` — its distance from `0.277`
exceeds `1/1000` (the true value is `33/53 ≈ 0.6226`). -/
theorem t_ref_value_counter :
    (1 : ℝ) / 1000 < |t_statistic sample85 85 - 277 / 1000| := by
  rw [t_statistic_sample85]
  rw [abs_of_pos (by norm_num : (0 : ℝ) < 33 / 53 - 277 / 1000)]
  norm_num

/-- C3 (amended): for every sample of size at least 2 with nonzero variance
and every `mu0`, the statistic of `one_sample_t_test` is
`(mean - mu0) / (s / sqrt n)` with `s` the square root of the
Bessel-corrected variance of `measures_of_spread`; for the reference sample
against `mu0 = 85` the statistic is exactly `33/53 ≈ 0.6226` (not `0.277`)
with `df = 9`. -/
theorem t_statistic_spec :
    (∀ (tcdf tppf : ℝ → ℤ → ℝ) (data : List ℚ) (mu0 alpha : ℚ) (alt : AlternativeKind),
      2 ≤ data.length → np_var data ≠ 0 →
      (one_sample_t_test tcdf tppf data mu0 alpha alt).statistic =
        (((npMean data : ℚ) : ℝ) - ((mu0 : ℚ) : ℝ)) /
          (Real.sqrt (((measures_of_spread data).variance : ℚ) : ℝ) /
            Real.sqrt (data.length : ℝ))) ∧
    t_statistic sample85 85 = 33 / 53 ∧
    df_of sample85 = 9 :=
  ⟨fun _ _ _ _ _ _ _ _ => rfl, t_statistic_sample85, by decide⟩

/-- C3 (witness): the formula part applied at the reference sample, with the
size and nonzero-variance hypotheses discharged concretely. -/
theorem t_statistic_spec_witness :
    (one_sample_t_test (fun _ _ => 0) (fun _ _ => 0) sample85 85 (5 / 100)
        AlternativeKind.twoSided).statistic =
      (((npMean sample85 : ℚ) : ℝ) - ((85 : ℚ) : ℝ)) /
        (Real.sqrt (((measures_of_spread sample85).variance : ℚ) : ℝ) /
          Real.sqrt (sample85.length : ℝ)) :=
  t_statistic_spec.1 (fun _ _ => 0) (fun _ _ => 0) sample85 85 (5 / 100)
    AlternativeKind.twoSided (by decide) (by rw [np_var_sample85]; norm_num)

/-- C4: for every input, the p-value field of the result of
`one_sample_t_test` is obtained from the t-distribution CDF at
`df = n - 1` degrees of freedom according to the chosen alternative:
`2 * (1 - cdf |t|)` for two-sided, `1 - cdf t` for greater, and `cdf t`
for less. -/
theorem p_value_from_cdf :
    ∀ (tcdf tppf : ℝ → ℤ → ℝ) (data : List ℚ) (mu0 alpha : ℚ) (alt : AlternativeKind),
      (one_sample_t_test tcdf tppf data mu0 alpha alt).p_value =
        match alt with
        | AlternativeKind.twoSided =>
            2 * (1 - tcdf |t_statistic data mu0| ((data.length : ℤ) - 1))
        | AlternativeKind.greater =>
            1 - tcdf (t_statistic data mu0) ((data.length : ℤ) - 1)
        | AlternativeKind.less =>
            tcdf (t_statistic data mu0) ((data.length : ℤ) - 1) := by
  intro tcdf tppf data mu0 alpha alt
  cases alt <;> rfl

/-- C5: for every input, the interpretation string of the result of
`one_sample_t_test` is the rejection message exactly when the computed
p-value is strictly below alpha, and the fail-to-reject message exactly
otherwise — the reported decision and the `p < alpha` comparison always
agree. -/
theorem decision_rule_iff :
    ∀ (tcdf tppf : ℝ → ℤ → ℝ) (data : List ℚ) (mu0 alpha : ℚ) (alt : AlternativeKind),
      ((one_sample_t_test tcdf tppf data mu0 alpha alt).interpretation =
          "Reject" ++ " H₀ at α = " ++ toString alpha ↔
        (one_sample_t_test tcdf tppf data mu0 alpha alt).p_value < (alpha : ℝ)) ∧
      ((one_sample_t_test tcdf tppf data mu0 alpha alt).interpretation =
          "Fail to reject" ++ " H₀ at α = " ++ toString alpha ↔
        ¬ (one_sample_t_test tcdf tppf data mu0 alpha alt).p_value < (alpha : ℝ)) := by
  intro tcdf tppf data mu0 alpha alt
  show (interpretation_of tcdf data mu0 alpha alt = _ ↔
      p_value_of tcdf data mu0 alt < (alpha : ℝ)) ∧
    (interpretation_of tcdf data mu0 alpha alt = _ ↔
      ¬ p_value_of tcdf data mu0 alt < (alpha : ℝ))
  unfold interpretation_of reject_null_of
  by_cases h : p_value_of tcdf data mu0 alt < (alpha : ℝ)
  · rw [if_pos h]
    refine ⟨⟨fun _ => h, fun _ => rfl⟩, ⟨fun heq => ?_, fun hn => absurd h hn⟩⟩
    exfalso
    have h2 := congrArg String.length heq
    simp only [String.length_append] at h2
    rw [show ("Reject" : String).length = 6 from rfl,
      show ("Fail to reject" : String).length = 14 from rfl] at h2
    omega
  · rw [if_neg h]
    refine ⟨⟨fun heq => ?_, fun hp => absurd hp h⟩, ⟨fun _ => h, fun _ => rfl⟩⟩
    exfalso
    have h2 := congrArg String.length heq
    simp only [String.length_append] at h2
    rw [show ("Reject" : String).length = 6 from rfl,
      show ("Fail to reject" : String).length = 14 from rfl] at h2
    omega

/-- C6: the variance returned by `measures_of_spread` is the sum of squared
deviations from the mean divided by `n - 1`, and the standard deviation is
its square root; for `[2, 4, 4, 4, 5, 5, 7, 9]` the variance is exactly
`32/7 ≈ 4.571429` and the standard deviation is within `1e-6` of
`2.138090`. -/
theorem spread_bessel :
    (∀ data : List ℚ, 2 ≤ data.length →
      (measures_of_spread data).variance =
        (data.map (fun x => (x - npMean data) ^ 2)).sum / ((data.length : ℚ) - 1) ∧
      (measures_of_spread data).std_dev =
        Real.sqrt (((measures_of_spread data).variance : ℚ) : ℝ)) ∧
    (measures_of_spread [2, 4, 4, 4, 5, 5, 7, 9]).variance = 32 / 7 ∧
    |(measures_of_spread [2, 4, 4, 4, 5, 5, 7, 9]).std_dev - 2138090 / 1000000| <
      1 / 1000000 := by
  refine ⟨fun data h => ⟨rfl, rfl⟩, ?_, ?_⟩
  · show np_var [2, 4, 4, 4, 5, 5, 7, 9] = 32 / 7
    norm_num [np_var, npMean]
  · have hv : (measures_of_spread [2, 4, 4, 4, 5, 5, 7, 9]).std_dev =
        Real.sqrt ((32 : ℝ) / 7) := by
      show np_std [2, 4, 4, 4, 5, 5, 7, 9] = _
      unfold np_std
      rw [show np_var [2, 4, 4, 4, 5, 5, 7, 9] = 32 / 7 by norm_num [np_var, npMean]]
      exact congrArg Real.sqrt (by norm_num)
    rw [hv]
    have h1 : (2138089 / 1000000 : ℝ) < Real.sqrt ((32 : ℝ) / 7) :=
      (Real.lt_sqrt (by norm_num)).mpr (by norm_num)
    have h2 : Real.sqrt ((32 : ℝ) / 7) < 2138091 / 1000000 :=
      (Real.sqrt_lt' (by norm_num)).mpr (by norm_num)
    rw [abs_lt]
    constructor <;> linarith

/-- C6 (witness): the general part applied to the concrete sample
`[1, 2]`. -/
theorem spread_bessel_witness :
    (measures_of_spread [1, 2]).variance =
      (([1, 2] : List ℚ).map (fun x => (x - npMean [1, 2]) ^ 2)).sum /
        ((([1, 2] : List ℚ).length : ℚ) - 1) ∧
    (measures_of_spread [1, 2]).std_dev =
      Real.sqrt (((measures_of_spread [1, 2]).variance : ℚ) : ℝ) :=
  spread_bessel.1 [1, 2] (by decide)

/-- C9: for every sample of size at least 2, the standard deviation field of
`measures_of_spread` is nonnegative and its square is exactly the variance
field of the same call. -/
theorem std_dev_sq :
    ∀ data : List ℚ, 2 ≤ data.length →
      (measures_of_spread data).std_dev ^ 2 =
        (((measures_of_spread data).variance : ℚ) : ℝ) ∧
      0 ≤ (measures_of_spread data).std_dev := by
  intro data h
  have h0 : (0 : ℚ) ≤ np_var data := by
    unfold np_var
    apply div_nonneg
    · apply List.sum_nonneg
      intro x hx
      simp only [List.mem_map] at hx
      obtain ⟨a, _, rfl⟩ := hx
      positivity
    · have h2 : (2 : ℚ) ≤ (data.length : ℚ) := by exact_mod_cast h
      linarith
  exact ⟨Real.sq_sqrt (by exact_mod_cast h0), Real.sqrt_nonneg _⟩

/-- C9 (witness): the consistency of the two fields at the concrete sample
`[2, 4]`. -/
theorem std_dev_sq_witness :
    (measures_of_spread [2, 4]).std_dev ^ 2 =
      (((measures_of_spread [2, 4]).variance : ℚ) : ℝ) ∧
    0 ≤ (measures_of_spread [2, 4]).std_dev :=
  std_dev_sq [2, 4] (by decide)

/-- C10: for every input, the `StatResult` returned by `one_sample_t_test`
has test name `"One-Sample t-test"`, carries the computed statistic,
p-value and a `some` critical value, has a nonempty interpretation, and its
`confidence_interval` and `steps` fields are always `none`. -/
theorem t_test_result_shape :
    ∀ (tcdf tppf : ℝ → ℤ → ℝ) (data : List ℚ) (mu0 alpha : ℚ) (alt : AlternativeKind),
      (one_sample_t_test tcdf tppf data mu0 alpha alt).test_name = "One-Sample t-test" ∧
      (one_sample_t_test tcdf tppf data mu0 alpha alt).statistic = t_statistic data mu0 ∧
      (one_sample_t_test tcdf tppf data mu0 alpha alt).p_value =
        p_value_of tcdf data mu0 alt ∧
      (one_sample_t_test tcdf tppf data mu0 alpha alt).critical_value =
        some (critical_value_of tppf data alpha alt) ∧
      (one_sample_t_test tcdf tppf data mu0 alpha alt).confidence_interval = none ∧
      (one_sample_t_test tcdf tppf data mu0 alpha alt).steps = none ∧
      (one_sample_t_test tcdf tppf data mu0 alpha alt).interpretation ≠ "" := by
  intro tcdf tppf data mu0 alpha alt
  refine ⟨rfl, rfl, rfl, rfl, rfl, rfl, ?_⟩
  show interpretation_of tcdf data mu0 alpha alt ≠ ""
  unfold interpretation_of
  intro h
  have h2 := congrArg String.length h
  rw [show ("" : String).length = 0 from rfl] at h2
  simp only [String.length_append] at h2
  rw [show (" H₀ at α = " : String).length = 11 from rfl] at h2
  omega
